import Mathlib

/-!
Verification development for the Neo4j connection-lifecycle manager of
app/database.py: configuration validation, init/close state machine,
retry policy with exponential backoff, scoped session/transaction
resource handling, health checking and the query helpers.

Python exceptions are modelled by an explicit error type, async effects
by explicit outcome schedules (a function from attempt index to the
outcome the backend would produce on that attempt), and the mutable
class-level state of the manager by an explicit state record threaded
through the operations.
-/

/-- Exceptions relevant to app/database.py: the neo4j driver error types
imported there plus the built-in errors the module raises itself. -/
inductive Neo4jErr where
  | serviceUnavailable (m : String)
  | sessionExpired (m : String)
  | transientError (m : String)
  | authError (m : String)
  | clientError (m : String)
  | valueError (m : String)
  | runtimeError (m : String)
deriving Repr, DecidableEq

/-- Decidable equality of outcomes, so concrete runs can be checked by
decide. -/
instance {ε α : Type} [DecidableEq ε] [DecidableEq α] : DecidableEq (Except ε α) :=
  fun a b =>
    match a, b with
    | Except.ok x, Except.ok y =>
      if h : x = y then isTrue (h ▸ rfl)
      else isFalse (fun hc => h (Except.ok.inj hc))
    | Except.error x, Except.error y =>
      if h : x = y then isTrue (h ▸ rfl)
      else isFalse (fun hc => h (Except.error.inj hc))
    | Except.ok _, Except.error _ => isFalse (fun hc => Except.noConfusion hc)
    | Except.error _, Except.ok _ => isFalse (fun hc => Except.noConfusion hc)

/-- The message carried by an exception, as str(e) would render it. -/
def Neo4jErr.msg : Neo4jErr → String
  | .serviceUnavailable m => m
  | .sessionExpired m => m
  | .transientError m => m
  | .authError m => m
  | .clientError m => m
  | .valueError m => m
  | .runtimeError m => m

/-- Membership in the retryable_exceptions tuple of with_retry:
(ServiceUnavailable, SessionExpired, TransientError). -/
def isRetryable : Neo4jErr → Bool
  | .serviceUnavailable _ => true
  | .sessionExpired _ => true
  | .transientError _ => true
  | _ => false

/-- Membership in the (ClientError, Neo4jError) tuple caught around the
GDS probe of health_check: ClientError, AuthError (a ClientError
subclass) and TransientError (a Neo4jError subclass) are caught;
ServiceUnavailable and SessionExpired are DriverError subclasses and are
not. -/
def isNeo4jError : Neo4jErr → Bool
  | .authError _ => true
  | .clientError _ => true
  | .transientError _ => true
  | _ => false

/-- Neo4jConfig: the frozen dataclass of connection settings. -/
structure Neo4jConfig where
  uri : String
  user : String
  password : String
  database : String
  maxPoolSize : Nat
  connectionTimeout : ℚ
  maxTransactionRetryTime : ℚ
  connectionAcquisitionTimeout : ℚ
deriving Repr, DecidableEq

/-- The accepted URI schemes of Neo4jConfig.validate, in source order. -/
def acceptedSchemes : List String :=
  ["bolt://", "bolt+s://", "neo4j://", "neo4j+s://"]

/-- Character-by-character prefix test, first list as the prefix. -/
def charsPrefix : List Char → List Char → Bool
  | [], _ => true
  | _ :: _, [] => false
  | c :: cs, d :: ds => c == d && charsPrefix cs ds

/-- s.startswith(p) for one candidate prefix p. -/
def strStartsWith (s p : String) : Bool :=
  charsPrefix p.data s.data

/-- uri.startswith((scheme, ...)) over the accepted schemes. -/
def acceptedScheme (uri : String) : Bool :=
  acceptedSchemes.any fun s => strStartsWith uri s

/-- Neo4jConfig.validate: an empty password is rejected first, then a URI
not starting with an accepted scheme; both raise ValueError. -/
def Neo4jConfig.validate (c : Neo4jConfig) : Except Neo4jErr Unit :=
  if c.password = "" then
    Except.error (Neo4jErr.valueError
      "NEO4J_PASSWORD environment variable is required. Set it in your .env file or environment.")
  else if acceptedScheme c.uri then
    Except.ok ()
  else
    Except.error (Neo4jErr.valueError ("Invalid NEO4J_URI scheme: " ++ c.uri))

/-- Default of the max_retries parameter of with_retry. -/
def defaultMaxRetries : Nat := 3

/-- Default of the base_delay parameter of with_retry (seconds). -/
def defaultBaseDelay : ℚ := 1

/-- Default of the max_delay parameter of with_retry (seconds). -/
def defaultMaxDelay : ℚ := 30

/-- Default of the exponential_base parameter of with_retry. -/
def defaultExponentialBase : ℚ := 2

/-- The backoff delay before jitter computed inside with_retry:
min(base_delay * exponential_base ** attempt, max_delay). -/
def backoffDelay (baseDelay exponentialBase maxDelay : ℚ) (attempt : Nat) : ℚ :=
  min (baseDelay * exponentialBase ^ attempt) maxDelay

/-- The realized delay after jitter: delay *= (0.75 + random.random() * 0.5),
where r stands for the value returned by random.random() on that attempt. -/
def jitteredDelay (baseDelay exponentialBase maxDelay : ℚ) (attempt : Nat) (r : ℚ) : ℚ :=
  backoffDelay baseDelay exponentialBase maxDelay attempt * (3/4 + r * (1/2))

/-- Trace of one call of a query-executing operation: the value returned
or exception raised, how many times the wrapped coroutine was invoked,
and the backoff sleeps performed, in order. -/
structure RetryOutcome (α : Type) where
  result : Except Neo4jErr α
  attemptsMade : Nat
  sleeps : List ℚ
deriving Repr

/-- The retry loop of with_retry. `bodies i` is the outcome of invoking
the wrapped coroutine on attempt i, `rand i` the random.random() draw of
attempt i. The fuel argument counts the iterations left in
`for attempt in range(max_retries + 1)`; the fuel-exhausted branch is the
dead code after the loop (raise last_exception / RuntimeError). -/
def withRetryAux {α : Type} (maxRetries : Nat) (baseDelay maxDelay exponentialBase : ℚ)
    (bodies : Nat → Except Neo4jErr α) (rand : Nat → ℚ) :
    Nat → Nat → Option Neo4jErr → List ℚ → RetryOutcome α
  | attempt, 0, lastE, sleeps =>
    match lastE with
    | some e => { result := Except.error e, attemptsMade := attempt, sleeps := sleeps }
    | none => { result := Except.error (Neo4jErr.runtimeError "Unexpected retry loop exit"),
                attemptsMade := attempt, sleeps := sleeps }
  | attempt, fuel + 1, _, sleeps =>
    match bodies attempt with
    | Except.ok v => { result := Except.ok v, attemptsMade := attempt + 1, sleeps := sleeps }
    | Except.error e =>
      if isRetryable e then
        if attempt = maxRetries then
          { result := Except.error e, attemptsMade := attempt + 1, sleeps := sleeps }
        else
          withRetryAux maxRetries baseDelay maxDelay exponentialBase bodies rand
            (attempt + 1) fuel (some e)
            (sleeps ++ [jitteredDelay baseDelay exponentialBase maxDelay attempt (rand attempt)])
      else
        { result := Except.error e, attemptsMade := attempt + 1, sleeps := sleeps }

/-- with_retry(max_retries, base_delay, max_delay, exponential_base)
applied to a coroutine: runs the retry loop from attempt 0 with
max_retries + 1 loop iterations available. -/
def with_retry {α : Type} (maxRetries : Nat) (baseDelay maxDelay exponentialBase : ℚ)
    (bodies : Nat → Except Neo4jErr α) (rand : Nat → ℚ) : RetryOutcome α :=
  withRetryAux maxRetries baseDelay maxDelay exponentialBase bodies rand
    0 (maxRetries + 1) none []

/-- The pooled-connection handle created by AsyncGraphDatabase.driver,
recording the arguments it was created with. -/
structure Driver where
  uri : String
  authUser : String
  authPassword : String
  maxConnectionPoolSize : Nat
  connectionTimeout : ℚ
  maxTransactionRetryTime : ℚ
  connectionAcquisitionTimeout : ℚ
deriving Repr, DecidableEq

/-- AsyncGraphDatabase.driver called with the fields of a config, as in
Neo4jDatabase.init. -/
def mkDriver (c : Neo4jConfig) : Driver :=
  { uri := c.uri
    authUser := c.user
    authPassword := c.password
    maxConnectionPoolSize := c.maxPoolSize
    connectionTimeout := c.connectionTimeout
    maxTransactionRetryTime := c.maxTransactionRetryTime
    connectionAcquisitionTimeout := c.connectionAcquisitionTimeout }

/-- The class-level mutable state of Neo4jDatabase:
_driver, _config, _initialized, _init_time (timestamps as rationals). -/
structure DBState where
  driver : Option Driver
  config : Option Neo4jConfig
  isInit : Bool
  initTime : Option ℚ
deriving Repr, DecidableEq

/-- Neo4jDatabase.is_initialized: _initialized and _driver is not None. -/
def DBState.is_initialized (st : DBState) : Bool :=
  st.isInit && st.driver.isSome

/-- Neo4jDatabase.get_uptime at current time `now`. -/
def DBState.get_uptime (st : DBState) (now : ℚ) : Option ℚ :=
  match st.initTime with
  | some t => some (now - t)
  | none => none

/-- The environment init runs against: the outcome of
driver.verify_connectivity (none = success, some e = raises e) and the
current wall-clock time. -/
structure World where
  verifyConnectivity : Driver → Option Neo4jErr
  now : ℚ

/-- What a call of Neo4jDatabase.init produced: the class state after the
call, the value returned or exception raised, and how many driver handles
were created and connectivity probes issued during the call. -/
structure InitResult where
  state : DBState
  result : Except Neo4jErr Unit
  driversCreated : Nat
  probes : Nat
deriving Repr

/-- Neo4jDatabase.init: skip when already initialized with a live driver;
otherwise store the (override or default) config, validate it, create the
driver handle, probe connectivity, and only on probe success set
_initialized and _init_time. The except clauses re-raise without touching
the state, so a probe failure leaves _driver set. (_get_server_info
swallows every exception, so it is not a raise point.) -/
def Neo4jDatabase.init (st : DBState) (cfgOverride : Option Neo4jConfig)
    (defaultCfg : Neo4jConfig) (w : World) : InitResult :=
  if st.isInit && st.driver.isSome then
    { state := st, result := Except.ok (), driversCreated := 0, probes := 0 }
  else
    let cfg := cfgOverride.getD defaultCfg
    let st1 : DBState := { st with config := some cfg }
    match cfg.validate with
    | Except.error e =>
      { state := st1, result := Except.error e, driversCreated := 0, probes := 0 }
    | Except.ok _ =>
      let d := mkDriver cfg
      let st2 : DBState := { st1 with driver := some d }
      match w.verifyConnectivity d with
      | some e =>
        { state := st2, result := Except.error e, driversCreated := 1, probes := 1 }
      | none =>
        { state := { st2 with isInit := true, initTime := some w.now }
          result := Except.ok ()
          driversCreated := 1
          probes := 1 }

/-- Neo4jDatabase.close: closes and clears the driver if present, resets
_initialized; a no-op warning otherwise. Never raises. -/
def Neo4jDatabase.close (st : DBState) : DBState :=
  if st.driver.isSome then
    { st with driver := none, isInit := false }
  else
    st

/-- Counters for the scoped resources of one session/transaction use:
whether each handle is currently open, and how many times each was
closed, committed or rolled back. -/
structure ResourceState where
  sessionOpen : Bool
  sessionCloses : Nat
  txOpen : Bool
  txCloses : Nat
  txCommits : Nat
  txRollbacks : Nat
deriving Repr, DecidableEq

/-- Fresh resource counters right after driver.session(...) returned. -/
def openedSession : ResourceState :=
  { sessionOpen := true, sessionCloses := 0, txOpen := false,
    txCloses := 0, txCommits := 0, txRollbacks := 0 }

/-- session.begin_transaction(). -/
def txBegin (s : ResourceState) : ResourceState :=
  { s with txOpen := true }

/-- tx.commit(): in the async driver, commit also closes the transaction. -/
def txCommit (s : ResourceState) : ResourceState :=
  { s with txOpen := false, txCloses := s.txCloses + 1, txCommits := s.txCommits + 1 }

/-- tx.rollback(): in the async driver, rollback also closes the transaction. -/
def txRollback (s : ResourceState) : ResourceState :=
  { s with txOpen := false, txCloses := s.txCloses + 1, txRollbacks := s.txRollbacks + 1 }

/-- tx.close(). -/
def txClose (s : ResourceState) : ResourceState :=
  { s with txOpen := false, txCloses := s.txCloses + 1 }

/-- tx.closed(). -/
def txClosed (s : ResourceState) : Bool :=
  !s.txOpen

/-- session.close(). -/
def sessionClose (s : ResourceState) : ResourceState :=
  { s with sessionOpen := false, sessionCloses := s.sessionCloses + 1 }

/-- Neo4jDatabase.session: get_driver raises RuntimeError when the
manager is not initialized (before any session exists); otherwise the
session is created, the inner body runs, and the finally block closes the
session on every exit path. -/
def Neo4jDatabase.session {α : Type} (st : DBState)
    (inner : ResourceState → Except Neo4jErr α × ResourceState) :
    Except Neo4jErr α × ResourceState :=
  if st.is_initialized then
    let r := inner openedSession
    (r.1, sessionClose r.2)
  else
    (Except.error (Neo4jErr.runtimeError
        "Neo4j driver not initialized. Call 'await Neo4jDatabase.init()' first."),
      { openedSession with sessionOpen := false })

/-- Outcome of the user-supplied body of a transaction scope: it either
completes or raises. -/
inductive BodyOutcome where
  | success
  | raises (e : Neo4jErr)
deriving Repr, DecidableEq

/-- Neo4jDatabase.transaction: inside a scoped session, begin an explicit
transaction, run the body; commit if it completed, roll back and re-raise
if it raised; the finally block closes the transaction handle only if it
is not already closed. -/
def Neo4jDatabase.transaction (st : DBState) (body : BodyOutcome) :
    Except Neo4jErr Unit × ResourceState :=
  Neo4jDatabase.session st fun s0 =>
    let s1 := txBegin s0
    let r : Except Neo4jErr Unit × ResourceState :=
      match body with
      | BodyOutcome.success => (Except.ok (), txCommit s1)
      | BodyOutcome.raises e => (Except.error e, txRollback s1)
    let s3 := if txClosed r.2 = false then txClose r.2 else r.2
    (r.1, s3)

/-- HealthCheckResult: the dataclass returned by health_check. -/
structure HealthCheckResult where
  status : String
  neo4j_connected : Bool
  neo4j_version : Option String
  neo4j_edition : Option String
  database : Option String
  gds_available : Option Bool
  gds_version : Option String
  latency_ms : Option ℚ
  uptime_seconds : Option ℚ
  error : Option String
deriving Repr, DecidableEq

/-- A HealthCheckResult built with only status, neo4j_connected and
error, every other field left at its default None. -/
def mkUnhealthy (err : String) : HealthCheckResult :=
  { status := "unhealthy", neo4j_connected := false, neo4j_version := none,
    neo4j_edition := none, database := none, gds_available := none,
    gds_version := none, latency_ms := none, uptime_seconds := none,
    error := some err }

/-- The environment one health_check call runs against: the outcome of
the RETURN 1 liveness probe (value of record["healthcheck"], none when
single() found no record), of the dbms.components() query, of the
gds.version() query, the measured latency, and the current time. -/
structure HealthWorld where
  liveness : Except Neo4jErr (Option Int)
  serverInfo : Except Neo4jErr (Option (String × String))
  gds : Except Neo4jErr (Option String)
  latencyMs : ℚ
  now : ℚ

/-- The try-block body of health_check, returning the built result or the
exception that escaped, together with the number of sessions opened.
Follows the source branch for branch: early unhealthy return when not
initialized (before any session); AttributeError if _config is None;
then the liveness probe, the non-detailed healthy return, the
dbms.components() query, and the gds.version() probe whose
(ClientError, Neo4jError) failures are swallowed. -/
def health_check_body (st : DBState) (detailed : Bool) (w : HealthWorld) :
    Except Neo4jErr HealthCheckResult × Nat :=
  if st.is_initialized = false then
    (Except.ok (mkUnhealthy "Neo4j driver not initialized"), 0)
  else
    match st.config with
    | none =>
      (Except.error (Neo4jErr.runtimeError
        "AttributeError: NoneType object has no attribute database"), 0)
    | some cfg =>
      match w.liveness with
      | Except.error e => (Except.error e, 1)
      | Except.ok none =>
        (Except.ok (mkUnhealthy "Health check query returned unexpected result"), 1)
      | Except.ok (some v) =>
        if v ≠ 1 then
          (Except.ok (mkUnhealthy "Health check query returned unexpected result"), 1)
        else if detailed = false then
          (Except.ok
            { status := "healthy", neo4j_connected := true, neo4j_version := none,
              neo4j_edition := none, database := some cfg.database,
              gds_available := none, gds_version := none,
              latency_ms := some w.latencyMs,
              uptime_seconds := st.get_uptime w.now, error := none }, 1)
        else
          match w.serverInfo with
          | Except.error e => (Except.error e, 1)
          | Except.ok srec =>
            match w.gds with
            | Except.error e =>
              if isNeo4jError e then
                (Except.ok
                  { status := "healthy", neo4j_connected := true,
                    neo4j_version := srec.map Prod.fst,
                    neo4j_edition := srec.map Prod.snd,
                    database := some cfg.database,
                    gds_available := some false, gds_version := none,
                    latency_ms := some w.latencyMs,
                    uptime_seconds := st.get_uptime w.now, error := none }, 1)
              else
                (Except.error e, 1)
            | Except.ok grec =>
              (Except.ok
                { status := "healthy", neo4j_connected := true,
                  neo4j_version := srec.map Prod.fst,
                  neo4j_edition := srec.map Prod.snd,
                  database := some cfg.database,
                  gds_available := some grec.isSome, gds_version := grec,
                  latency_ms := some w.latencyMs,
                  uptime_seconds := st.get_uptime w.now, error := none }, 1)

/-- health_check: the try-block body wrapped in the except clauses, which
convert ServiceUnavailable, AuthError and every other exception into an
unhealthy result instead of propagating. Total by construction: every
branch returns a HealthCheckResult. -/
def health_check (st : DBState) (detailed : Bool) (w : HealthWorld) :
    HealthCheckResult × Nat :=
  match health_check_body st detailed w with
  | (Except.ok r, n) => (r, n)
  | (Except.error (Neo4jErr.serviceUnavailable m), n) =>
    (mkUnhealthy ("Service unavailable: " ++ m), n)
  | (Except.error (Neo4jErr.authError m), n) =>
    (mkUnhealthy ("Authentication failed: " ++ m), n)
  | (Except.error e, n) => (mkUnhealthy e.msg, n)

/-- A record of a query result, with keys and values as the driver holds
them; record.data() zips them into a dict. -/
structure Record where
  keys : List String
  values : List Int
deriving Repr, DecidableEq

/-- record.data(). -/
def Record.data (r : Record) : List (String × Int) :=
  r.keys.zip r.values

/-- result.fetch(n): takes the next n records from the stream, leaving
the rest unconsumed. -/
def fetchBatch (stream : List Record) (n : Nat) : List Record × List Record :=
  (stream.take n, stream.drop n)

/-- Default of the fetch_size parameter of run_query. -/
def defaultFetchSize : Nat := 1000

/-- The body of run_query for one attempt: inside a scoped session, run
the query (outcome supplied by the environment: the full result stream,
or the exception session.run raises), fetch one batch of fetch_size
records and return their data. -/
def run_query_once (st : DBState) (outcome : Except Neo4jErr (List Record))
    (fetchSize : Nat) : Except Neo4jErr (List (List (String × Int))) :=
  (Neo4jDatabase.session st fun s =>
    match outcome with
    | Except.error e => (Except.error e, s)
    | Except.ok stream =>
      (Except.ok ((fetchBatch stream fetchSize).1.map Record.data), s)).1

/-- run_query as exported: the body wrapped by
with_retry(max_retries=3, base_delay=1.0) with default max_delay and
exponential_base; `outcomes i` is what the backend produces on attempt i. -/
def run_query (st : DBState) (outcomes : Nat → Except Neo4jErr (List Record))
    (fetchSize : Nat) (rand : Nat → ℚ) :
    RetryOutcome (List (List (String × Int))) :=
  with_retry 3 1 defaultMaxDelay defaultExponentialBase
    (fun i => run_query_once st (outcomes i) fetchSize) rand

/-- The body of run_query_single for one attempt: result.single() gives
at most one record; its data, or None. -/
def run_query_single_once (st : DBState)
    (outcome : Except Neo4jErr (Option Record)) :
    Except Neo4jErr (Option (List (String × Int))) :=
  (Neo4jDatabase.session st fun s =>
    match outcome with
    | Except.error e => (Except.error e, s)
    | Except.ok rec => (Except.ok (rec.map Record.data), s)).1

/-- run_query_single as exported: body wrapped by
with_retry(max_retries=3, base_delay=1.0). -/
def run_query_single (st : DBState)
    (outcomes : Nat → Except Neo4jErr (Option Record)) (rand : Nat → ℚ) :
    RetryOutcome (Option (List (String × Int))) :=
  with_retry 3 1 defaultMaxDelay defaultExponentialBase
    (fun i => run_query_single_once st (outcomes i)) rand

/-- The write counters of a result summary, as run_write returns them. -/
structure Counters where
  nodes_created : Nat
  nodes_deleted : Nat
  relationships_created : Nat
  relationships_deleted : Nat
  properties_set : Nat
  labels_added : Nat
  labels_removed : Nat
  indexes_added : Nat
  indexes_removed : Nat
  constraints_added : Nat
  constraints_removed : Nat
deriving Repr, DecidableEq

/-- The body of run_write for one attempt: inside a scoped session, run
the write and consume the summary, returning its counters. -/
def run_write_once (st : DBState) (outcome : Except Neo4jErr Counters) :
    Except Neo4jErr Counters :=
  (Neo4jDatabase.session st fun s =>
    match outcome with
    | Except.error e => (Except.error e, s)
    | Except.ok c => (Except.ok c, s)).1

/-- run_write as exported: body wrapped by
with_retry(max_retries=3, base_delay=1.0). -/
def run_write (st : DBState) (outcomes : Nat → Except Neo4jErr Counters)
    (rand : Nat → ℚ) : RetryOutcome Counters :=
  with_retry 3 1 defaultMaxDelay defaultExponentialBase
    (fun i => run_write_once st (outcomes i)) rand

/-- run_transaction as exported: it has no with_retry decorator, so one
call invokes the transaction scope exactly once, performs no backoff
sleep, and whatever the scope produced — including a transient-classified
exception — goes straight to the caller. The schedule argument mirrors
the wrapped helpers: only index 0 is ever used. -/
def run_transaction (st : DBState) (bodies : Nat → BodyOutcome) :
    RetryOutcome Unit :=
  { result := (Neo4jDatabase.transaction st (bodies 0)).1,
    attemptsMade := 1,
    sleeps := [] }

/-- A well-formed configuration, used as a concrete test fixture. -/
def cfgGood : Neo4jConfig :=
  { uri := "bolt://localhost:7687", user := "neo4j", password := "secret",
    database := "neo4j", maxPoolSize := 50, connectionTimeout := 30,
    maxTransactionRetryTime := 30, connectionAcquisitionTimeout := 60 }

/-- The fixture configuration with its password blanked. -/
def cfgNoPassword : Neo4jConfig :=
  { cfgGood with password := "" }

/-- The fixture configuration with a rejected URI scheme. -/
def cfgBadScheme : Neo4jConfig :=
  { cfgGood with uri := "http://localhost:7474" }

/-- The class state before any init. -/
def emptyState : DBState :=
  { driver := none, config := none, isInit := false, initTime := none }

/-- The class state after a successful init with the fixture config. -/
def readyState : DBState :=
  { driver := some (mkDriver cfgGood), config := some cfgGood,
    isInit := true, initTime := some 0 }

/-- A world whose connectivity probe always fails as unreachable. -/
def downWorld : World :=
  { verifyConnectivity := fun _ => some (Neo4jErr.serviceUnavailable "Connection refused"),
    now := 5 }

/-- A world whose connectivity probe always succeeds. -/
def upWorld : World :=
  { verifyConnectivity := fun _ => none, now := 5 }

/-- A health-check world where the backend answers every probe. -/
def healthyWorld : HealthWorld :=
  { liveness := Except.ok (some 1), serverInfo := Except.ok (some ("5.13.0", "community")),
    gds := Except.ok none, latencyMs := 2, now := 7 }

/-- If the first attempt succeeds, the retry wrapper returns its value
after exactly one invocation and no sleep. -/
theorem with_retry_first_ok {α : Type} (maxR : Nat) (b m ex : ℚ)
    (bodies : Nat → Except Neo4jErr α) (rand : Nat → ℚ) (v : α)
    (h0 : bodies 0 = Except.ok v) :
    with_retry maxR b m ex bodies rand =
      { result := Except.ok v, attemptsMade := 1, sleeps := [] } := by
  simp [with_retry, withRetryAux, h0]

/-- A non-retryable exception on the first attempt escapes the except
clause of the retry loop at once: one invocation, no sleep, the exception
itself. -/
theorem with_retry_nonretryable {α : Type} (maxR : Nat) (b m ex : ℚ)
    (bodies : Nat → Except Neo4jErr α) (rand : Nat → ℚ) (e : Neo4jErr)
    (h0 : bodies 0 = Except.error e) (hnr : isRetryable e = false) :
    with_retry maxR b m ex bodies rand =
      { result := Except.error e, attemptsMade := 1, sleeps := [] } := by
  simp [with_retry, withRetryAux, h0, hnr]

/-- A retryable failure on attempt 0 followed by success on attempt 1 is
retried once: the wrapper returns the second value after two invocations. -/
theorem with_retry_retries_once {α : Type} (maxR : Nat) (b m ex : ℚ)
    (bodies : Nat → Except Neo4jErr α) (rand : Nat → ℚ) (e : Neo4jErr) (v : α)
    (hpos : 0 < maxR) (h0 : bodies 0 = Except.error e)
    (hr : isRetryable e = true) (h1 : bodies 1 = Except.ok v) :
    (with_retry maxR b m ex bodies rand).result = Except.ok v ∧
    (with_retry maxR b m ex bodies rand).attemptsMade = 2 := by
  cases maxR with
  | zero => exact absurd hpos (by decide)
  | succ k =>
    constructor <;>
      simp [with_retry, withRetryAux, h0, hr, h1, Nat.succ_ne_zero]

/-- When every attempt up to and including the last fails retryable, the
retry loop re-raises the error of the final attempt after
maxRetries + 1 invocations. Stated over the loop tail: fuel + 1 loop
iterations remain and `attempt + fuel = maxRetries`. -/
theorem withRetryAux_exhaust {α : Type} (maxR : Nat) (b m ex : ℚ)
    (bodies : Nat → Except Neo4jErr α) (rand : Nat → ℚ) (errs : Nat → Neo4jErr)
    (hb : ∀ i, bodies i = Except.error (errs i))
    (hr : ∀ i, isRetryable (errs i) = true) :
    ∀ (fuel attempt : Nat), attempt + fuel = maxR → ∀ lastE sleeps,
      (withRetryAux maxR b m ex bodies rand attempt (fuel + 1) lastE sleeps).result =
        Except.error (errs maxR) ∧
      (withRetryAux maxR b m ex bodies rand attempt (fuel + 1) lastE sleeps).attemptsMade =
        maxR + 1 := by
  intro fuel
  induction fuel with
  | zero =>
    intro attempt hsum lastE sleeps
    have ha : attempt = maxR := by omega
    subst ha
    constructor <;> simp [withRetryAux, hb attempt, hr attempt]
  | succ k ih =>
    intro attempt hsum lastE sleeps
    have hne : attempt ≠ maxR := by omega
    have hstep :
        withRetryAux maxR b m ex bodies rand attempt (k + 1 + 1) lastE sleeps =
          withRetryAux maxR b m ex bodies rand (attempt + 1) (k + 1) (some (errs attempt))
            (sleeps ++ [jitteredDelay b ex m attempt (rand attempt)]) := by
      simp [withRetryAux, hb attempt, hr attempt, hne]
    rw [hstep]
    exact ih (attempt + 1) (by omega) _ _

/-- Claim C4: in the retry wrapper, the delay before jitter for attempt i
equals min(base_delay * exponential_base^i, max_delay); the jitter
multiplies it by a factor in [0.75, 1.25], keeping the realized delay
within 25 percent of it; and the defaults are base_delay 1.0,
exponential_base 2.0, max_delay 30 and max_retries 3. -/
theorem C4_backoff_formula_and_defaults (base expB maxD r : ℚ) (i : Nat)
    (hb : 0 ≤ base) (he : 0 ≤ expB) (hm : 0 ≤ maxD) (hr0 : 0 ≤ r) (hr1 : r < 1) :
    backoffDelay base expB maxD i = min (base * expB ^ i) maxD ∧
    jitteredDelay base expB maxD i r =
      backoffDelay base expB maxD i * (3/4 + r * (1/2)) ∧
    (3/4) * backoffDelay base expB maxD i ≤ jitteredDelay base expB maxD i r ∧
    jitteredDelay base expB maxD i r ≤ (5/4) * backoffDelay base expB maxD i ∧
    defaultBaseDelay = 1 ∧ defaultExponentialBase = 2 ∧ defaultMaxDelay = 30 ∧
    defaultMaxRetries = 3 := by
  have hd : 0 ≤ backoffDelay base expB maxD i :=
    le_min (mul_nonneg hb (pow_nonneg he i)) hm
  refine ⟨rfl, rfl, ?_, ?_, rfl, rfl, rfl, rfl⟩
  · unfold jitteredDelay
    nlinarith
  · unfold jitteredDelay
    nlinarith

/-- Witness for C4 at base 1, multiplier 2, cap 30, attempt 2, draw 1/2. -/
theorem C4_backoff_formula_and_defaults_witness :
    backoffDelay 1 2 30 2 = min (1 * 2 ^ 2) 30 ∧
    jitteredDelay 1 2 30 2 (1/2) = backoffDelay 1 2 30 2 * (3/4 + (1/2) * (1/2)) ∧
    (3/4) * backoffDelay 1 2 30 2 ≤ jitteredDelay 1 2 30 2 (1/2) ∧
    jitteredDelay 1 2 30 2 (1/2) ≤ (5/4) * backoffDelay 1 2 30 2 ∧
    defaultBaseDelay = 1 ∧ defaultExponentialBase = 2 ∧ defaultMaxDelay = 30 ∧
    defaultMaxRetries = 3 :=
  C4_backoff_formula_and_defaults 1 2 30 (1/2) 2 (by norm_num) (by norm_num)
    (by norm_num) (by norm_num) (by norm_num)

/-- Claim C5: when every one of the max_retries + 1 attempts fails with a
transient-classified error, the exception raised to the caller is exactly
the exception observed on the last attempt, unchanged, after exactly
max_retries + 1 invocations. -/
theorem C5_exhaustion_preserves_error (α : Type) (maxR : Nat) (b m ex : ℚ)
    (bodies : Nat → Except Neo4jErr α) (rand : Nat → ℚ) (errs : Nat → Neo4jErr)
    (hb : ∀ i, bodies i = Except.error (errs i))
    (hr : ∀ i, isRetryable (errs i) = true) :
    (with_retry maxR b m ex bodies rand).result = Except.error (errs maxR) ∧
    (with_retry maxR b m ex bodies rand).attemptsMade = maxR + 1 :=
  withRetryAux_exhaust maxR b m ex bodies rand errs hb hr maxR 0 (by omega) none []

/-- Witness for C5: four transient failures with defaults re-raise the
final TransientError itself. -/
theorem C5_exhaustion_preserves_error_witness :
    (with_retry 3 1 30 2
      (fun _ => (Except.error (Neo4jErr.transientError "deadlock") : Except Neo4jErr Unit))
      (fun _ => 0)).result = Except.error (Neo4jErr.transientError "deadlock") ∧
    (with_retry 3 1 30 2
      (fun _ => (Except.error (Neo4jErr.transientError "deadlock") : Except Neo4jErr Unit))
      (fun _ => 0)).attemptsMade = 3 + 1 :=
  C5_exhaustion_preserves_error Unit 3 1 30 2
    (fun _ => Except.error (Neo4jErr.transientError "deadlock")) (fun _ => 0)
    (fun _ => Neo4jErr.transientError "deadlock") (fun _ => rfl) (fun _ => rfl)

/-- Claim C6: a failure outside the transient set — an authentication or
malformed-query error among them — propagates from every wrapped helper
after exactly one attempt, with zero retries and zero backoff sleeps. -/
theorem C6_nonretryable_short_circuits (st : DBState)
    (oq : Nat → Except Neo4jErr (List Record))
    (os : Nat → Except Neo4jErr (Option Record))
    (ow : Nat → Except Neo4jErr Counters)
    (fetchSize : Nat) (rand : Nat → ℚ) (e : Neo4jErr)
    (hinit : st.is_initialized = true) (hnr : isRetryable e = false)
    (hq : oq 0 = Except.error e) (hs : os 0 = Except.error e)
    (hw : ow 0 = Except.error e) :
    run_query st oq fetchSize rand =
      { result := Except.error e, attemptsMade := 1, sleeps := [] } ∧
    run_query_single st os rand =
      { result := Except.error e, attemptsMade := 1, sleeps := [] } ∧
    run_write st ow rand =
      { result := Except.error e, attemptsMade := 1, sleeps := [] } := by
  refine ⟨?_, ?_, ?_⟩
  · exact with_retry_nonretryable 3 1 defaultMaxDelay defaultExponentialBase _ rand e
      (by simp [run_query_once, Neo4jDatabase.session, hinit, hq]) hnr
  · exact with_retry_nonretryable 3 1 defaultMaxDelay defaultExponentialBase _ rand e
      (by simp [run_query_single_once, Neo4jDatabase.session, hinit, hs]) hnr
  · exact with_retry_nonretryable 3 1 defaultMaxDelay defaultExponentialBase _ rand e
      (by simp [run_write_once, Neo4jDatabase.session, hinit, hw]) hnr

/-- Witness for C6: an AuthError and a ClientError (malformed query) each
propagate from run_query after one attempt and no sleep. -/
theorem C6_nonretryable_short_circuits_witness :
    run_query readyState (fun _ => Except.error (Neo4jErr.authError "unauthorized")) 1000
        (fun _ => 0) =
      { result := Except.error (Neo4jErr.authError "unauthorized"),
        attemptsMade := 1, sleeps := [] } ∧
    run_query readyState (fun _ => Except.error (Neo4jErr.clientError "SyntaxError")) 1000
        (fun _ => 0) =
      { result := Except.error (Neo4jErr.clientError "SyntaxError"),
        attemptsMade := 1, sleeps := [] } :=
  ⟨(C6_nonretryable_short_circuits readyState
      (fun _ => Except.error (Neo4jErr.authError "unauthorized"))
      (fun _ => Except.error (Neo4jErr.authError "unauthorized"))
      (fun _ => Except.error (Neo4jErr.authError "unauthorized"))
      1000 (fun _ => 0) (Neo4jErr.authError "unauthorized")
      (by decide) rfl rfl rfl rfl).1,
   (C6_nonretryable_short_circuits readyState
      (fun _ => Except.error (Neo4jErr.clientError "SyntaxError"))
      (fun _ => Except.error (Neo4jErr.clientError "SyntaxError"))
      (fun _ => Except.error (Neo4jErr.clientError "SyntaxError"))
      1000 (fun _ => 0) (Neo4jErr.clientError "SyntaxError")
      (by decide) rfl rfl rfl rfl).1⟩

/-- Counterexample to claim C1 as stated: from a fresh state, with a valid
config, a failed connectivity probe makes init raise ServiceUnavailable,
yet the state after the call still holds the driver handle — the except
clauses re-raise without clearing _driver, so the handle is retained. -/
theorem C1_handle_retained_cex :
    (Neo4jDatabase.init emptyState none cfgGood downWorld).result =
      Except.error (Neo4jErr.serviceUnavailable "Connection refused") ∧
    (Neo4jDatabase.init emptyState none cfgGood downWorld).state.driver ≠ none := by
  constructor
  · decide
  · decide

/-- Claim C1 (amended): if init raises after the pooled handle was
created (the connectivity probe failed), the manager is not left in the
Initialized state — _initialized stays False and is_initialized reports
False — but the created connection handle is retained in _driver; it is
not cleared or closed. -/
theorem C1_init_failure_uninitialized_but_handle_retained (st : DBState)
    (cfgO : Option Neo4jConfig) (dflt : Neo4jConfig) (w : World) (e : Neo4jErr)
    (hinit : st.isInit = false)
    (hval : (cfgO.getD dflt).validate = Except.ok ())
    (hconn : w.verifyConnectivity (mkDriver (cfgO.getD dflt)) = some e) :
    (Neo4jDatabase.init st cfgO dflt w).result = Except.error e ∧
    (Neo4jDatabase.init st cfgO dflt w).state.isInit = false ∧
    (Neo4jDatabase.init st cfgO dflt w).state.is_initialized = false ∧
    (Neo4jDatabase.init st cfgO dflt w).state.driver =
      some (mkDriver (cfgO.getD dflt)) := by
  refine ⟨?_, ?_, ?_, ?_⟩ <;>
    simp [Neo4jDatabase.init, DBState.is_initialized, hinit, hval, hconn]

/-- Witness for the amended C1 at the concrete fixture input. -/
theorem C1_init_failure_uninitialized_but_handle_retained_witness :
    (Neo4jDatabase.init emptyState none cfgGood downWorld).result =
      Except.error (Neo4jErr.serviceUnavailable "Connection refused") ∧
    (Neo4jDatabase.init emptyState none cfgGood downWorld).state.isInit = false ∧
    (Neo4jDatabase.init emptyState none cfgGood downWorld).state.is_initialized = false ∧
    (Neo4jDatabase.init emptyState none cfgGood downWorld).state.driver =
      some (mkDriver ((none : Option Neo4jConfig).getD cfgGood)) :=
  C1_init_failure_uninitialized_but_handle_retained emptyState none cfgGood downWorld
    (Neo4jErr.serviceUnavailable "Connection refused") rfl (by decide) rfl

/-- Claim C7: with the manager not skipping (not already initialized), a
config with an empty password or an unaccepted URI scheme makes init
raise ValueError before any driver handle is created or any connectivity
probe issued, while a config passing both checks proceeds to driver
creation. -/
theorem C7_config_validated_before_io (st : DBState) (cfgO : Option Neo4jConfig)
    (dflt : Neo4jConfig) (w : World)
    (hskip : (st.isInit && st.driver.isSome) = false) :
    (((cfgO.getD dflt).password = "" ∨ acceptedScheme (cfgO.getD dflt).uri = false) →
      (∃ msg, (Neo4jDatabase.init st cfgO dflt w).result =
        Except.error (Neo4jErr.valueError msg)) ∧
      (Neo4jDatabase.init st cfgO dflt w).driversCreated = 0 ∧
      (Neo4jDatabase.init st cfgO dflt w).probes = 0) ∧
    (((cfgO.getD dflt).password ≠ "" ∧ acceptedScheme (cfgO.getD dflt).uri = true) →
      (Neo4jDatabase.init st cfgO dflt w).driversCreated = 1 ∧
      (Neo4jDatabase.init st cfgO dflt w).probes = 1) := by
  constructor
  · intro hbad
    by_cases hpw : (cfgO.getD dflt).password = ""
    · exact ⟨⟨"NEO4J_PASSWORD environment variable is required. Set it in your .env file or environment.",
        by simp [Neo4jDatabase.init, hskip, Neo4jConfig.validate, hpw]⟩,
        by simp [Neo4jDatabase.init, hskip, Neo4jConfig.validate, hpw],
        by simp [Neo4jDatabase.init, hskip, Neo4jConfig.validate, hpw]⟩
    · have hs : acceptedScheme (cfgO.getD dflt).uri = false := by
        rcases hbad with h | h
        · exact absurd h hpw
        · exact h
      exact ⟨⟨"Invalid NEO4J_URI scheme: " ++ (cfgO.getD dflt).uri,
        by simp [Neo4jDatabase.init, hskip, Neo4jConfig.validate, hpw, hs]⟩,
        by simp [Neo4jDatabase.init, hskip, Neo4jConfig.validate, hpw, hs],
        by simp [Neo4jDatabase.init, hskip, Neo4jConfig.validate, hpw, hs]⟩
  · rintro ⟨hpw, hs⟩
    have hok : (cfgO.getD dflt).validate = Except.ok () := by
      simp [Neo4jConfig.validate, hpw, hs]
    cases hconn : w.verifyConnectivity (mkDriver (cfgO.getD dflt)) with
    | none => constructor <;> simp [Neo4jDatabase.init, hskip, hok, hconn]
    | some e => constructor <;> simp [Neo4jDatabase.init, hskip, hok, hconn]

/-- Witness for C7: the empty-password fixture aborts init with
ValueError, creating no handle and issuing no probe. -/
theorem C7_config_validated_before_io_witness :
    (∃ msg, (Neo4jDatabase.init emptyState (some cfgNoPassword) cfgGood upWorld).result =
      Except.error (Neo4jErr.valueError msg)) ∧
    (Neo4jDatabase.init emptyState (some cfgNoPassword) cfgGood upWorld).driversCreated = 0 ∧
    (Neo4jDatabase.init emptyState (some cfgNoPassword) cfgGood upWorld).probes = 0 :=
  (C7_config_validated_before_io emptyState (some cfgNoPassword) cfgGood upWorld
    rfl).1 (Or.inl rfl)

/-- Claim C9: calling init on an already initialized manager (flag set
and a live driver present) returns immediately: the state — handle,
config, init timestamp — is unchanged, no driver is created and no
connectivity probe is issued. -/
theorem C9_init_idempotent (st : DBState) (cfgO : Option Neo4jConfig)
    (dflt : Neo4jConfig) (w : World) (d : Driver)
    (hinit : st.isInit = true) (hdrv : st.driver = some d) :
    Neo4jDatabase.init st cfgO dflt w =
      { state := st, result := Except.ok (), driversCreated := 0, probes := 0 } := by
  simp [Neo4jDatabase.init, hinit, hdrv]

/-- Witness for C9 at the initialized fixture state. -/
theorem C9_init_idempotent_witness :
    Neo4jDatabase.init readyState (some cfgBadScheme) cfgGood downWorld =
      { state := readyState, result := Except.ok (),
        driversCreated := 0, probes := 0 } :=
  C9_init_idempotent readyState (some cfgBadScheme) cfgGood downWorld
    (mkDriver cfgGood) rfl rfl

/-- Counterexample to claim C2 as stated: run_transaction carries no
with_retry decorator, so a transient-classified ServiceUnavailable raised
inside the transaction scope propagates to the caller after a single
invocation with no backoff sleep, instead of being retried. -/
theorem C2_run_transaction_unwrapped_cex :
    (run_transaction readyState
      (fun _ => BodyOutcome.raises (Neo4jErr.serviceUnavailable "down"))).result =
      Except.error (Neo4jErr.serviceUnavailable "down") ∧
    (run_transaction readyState
      (fun _ => BodyOutcome.raises (Neo4jErr.serviceUnavailable "down"))).attemptsMade = 1 ∧
    (run_transaction readyState
      (fun _ => BodyOutcome.raises (Neo4jErr.serviceUnavailable "down"))).sleeps = [] ∧
    isRetryable (Neo4jErr.serviceUnavailable "down") = true := by
  refine ⟨by decide, rfl, rfl, rfl⟩

/-- Claim C2 (amended): run_query, run_query_single and run_write are
wrapped by the retry policy — a transient-classified failure on the first
attempt is retried and a success on the second attempt is returned —
but run_transaction is not wrapped: it always invokes its body exactly
once and never sleeps, so a transient failure there propagates
immediately. -/
theorem C2_retry_wrapping_coverage (st : DBState)
    (oq : Nat → Except Neo4jErr (List Record))
    (os : Nat → Except Neo4jErr (Option Record))
    (ow : Nat → Except Neo4jErr Counters)
    (bodies : Nat → BodyOutcome)
    (fetchSize : Nat) (rand : Nat → ℚ) (e : Neo4jErr)
    (vq : List Record) (vs : Option Record) (vw : Counters)
    (hinit : st.is_initialized = true) (hr : isRetryable e = true)
    (hq0 : oq 0 = Except.error e) (hq1 : oq 1 = Except.ok vq)
    (hs0 : os 0 = Except.error e) (hs1 : os 1 = Except.ok vs)
    (hw0 : ow 0 = Except.error e) (hw1 : ow 1 = Except.ok vw) :
    ((run_query st oq fetchSize rand).result =
        Except.ok ((vq.take fetchSize).map Record.data) ∧
      (run_query st oq fetchSize rand).attemptsMade = 2) ∧
    ((run_query_single st os rand).result = Except.ok (vs.map Record.data) ∧
      (run_query_single st os rand).attemptsMade = 2) ∧
    ((run_write st ow rand).result = Except.ok vw ∧
      (run_write st ow rand).attemptsMade = 2) ∧
    (run_transaction st bodies).attemptsMade = 1 ∧
    (run_transaction st bodies).sleeps = [] := by
  refine ⟨?_, ?_, ?_, rfl, rfl⟩
  · exact with_retry_retries_once 3 1 defaultMaxDelay defaultExponentialBase _ rand e _
      (by norm_num)
      (by simp [run_query_once, Neo4jDatabase.session, hinit, hq0])
      hr
      (by simp [run_query_once, Neo4jDatabase.session, hinit, hq1, fetchBatch])
  · exact with_retry_retries_once 3 1 defaultMaxDelay defaultExponentialBase _ rand e _
      (by norm_num)
      (by simp [run_query_single_once, Neo4jDatabase.session, hinit, hs0])
      hr
      (by simp [run_query_single_once, Neo4jDatabase.session, hinit, hs1])
  · exact with_retry_retries_once 3 1 defaultMaxDelay defaultExponentialBase _ rand e _
      (by norm_num)
      (by simp [run_write_once, Neo4jDatabase.session, hinit, hw0])
      hr
      (by simp [run_write_once, Neo4jDatabase.session, hinit, hw1])

/-- Witness for the amended C2: a ServiceUnavailable on attempt 0 and a
success on attempt 1 make the three wrapped helpers succeed after two
attempts, while run_transaction performs exactly one. -/
theorem C2_retry_wrapping_coverage_witness :
    ((run_query readyState
        (fun i => if i = 0 then Except.error (Neo4jErr.serviceUnavailable "down")
          else Except.ok []) 1000 (fun _ => 0)).result =
        Except.ok ((List.take 1000 ([] : List Record)).map Record.data) ∧
      (run_query readyState
        (fun i => if i = 0 then Except.error (Neo4jErr.serviceUnavailable "down")
          else Except.ok []) 1000 (fun _ => 0)).attemptsMade = 2) ∧
    ((run_query_single readyState
        (fun i => if i = 0 then Except.error (Neo4jErr.serviceUnavailable "down")
          else Except.ok none) (fun _ => 0)).result =
        Except.ok (Option.map Record.data none) ∧
      (run_query_single readyState
        (fun i => if i = 0 then Except.error (Neo4jErr.serviceUnavailable "down")
          else Except.ok none) (fun _ => 0)).attemptsMade = 2) ∧
    ((run_write readyState
        (fun i => if i = 0 then Except.error (Neo4jErr.serviceUnavailable "down")
          else Except.ok ⟨1, 0, 0, 0, 0, 0, 0, 0, 0, 0, 0⟩) (fun _ => 0)).result =
        Except.ok ⟨1, 0, 0, 0, 0, 0, 0, 0, 0, 0, 0⟩ ∧
      (run_write readyState
        (fun i => if i = 0 then Except.error (Neo4jErr.serviceUnavailable "down")
          else Except.ok ⟨1, 0, 0, 0, 0, 0, 0, 0, 0, 0, 0⟩) (fun _ => 0)).attemptsMade = 2) ∧
    (run_transaction readyState (fun _ => BodyOutcome.success)).attemptsMade = 1 ∧
    (run_transaction readyState (fun _ => BodyOutcome.success)).sleeps = [] :=
  C2_retry_wrapping_coverage readyState
    (fun i => if i = 0 then Except.error (Neo4jErr.serviceUnavailable "down")
      else Except.ok [])
    (fun i => if i = 0 then Except.error (Neo4jErr.serviceUnavailable "down")
      else Except.ok none)
    (fun i => if i = 0 then Except.error (Neo4jErr.serviceUnavailable "down")
      else Except.ok ⟨1, 0, 0, 0, 0, 0, 0, 0, 0, 0, 0⟩)
    (fun _ => BodyOutcome.success) 1000 (fun _ => 0)
    (Neo4jErr.serviceUnavailable "down") [] none ⟨1, 0, 0, 0, 0, 0, 0, 0, 0, 0, 0⟩
    rfl rfl rfl rfl rfl rfl rfl rfl

/-- Claim C8: in the scoped transaction context, the transaction commits
exactly when the body completes; an exception in the body triggers a
rollback and is re-raised; and on every exit path the transaction handle
ends closed having been closed exactly once, and the underlying session
is closed exactly once. -/
theorem C8_transaction_scope (st : DBState) (body : BodyOutcome)
    (hinit : st.is_initialized = true) :
    ((Neo4jDatabase.transaction st body).2.txCommits = 1 ↔
      body = BodyOutcome.success) ∧
    (∀ e, body = BodyOutcome.raises e →
      (Neo4jDatabase.transaction st body).1 = Except.error e ∧
      (Neo4jDatabase.transaction st body).2.txRollbacks = 1) ∧
    (body = BodyOutcome.success →
      (Neo4jDatabase.transaction st body).1 = Except.ok ()) ∧
    (Neo4jDatabase.transaction st body).2.txCloses = 1 ∧
    (Neo4jDatabase.transaction st body).2.sessionCloses = 1 ∧
    (Neo4jDatabase.transaction st body).2.txOpen = false ∧
    (Neo4jDatabase.transaction st body).2.sessionOpen = false := by
  cases body <;>
    simp [Neo4jDatabase.transaction, Neo4jDatabase.session, hinit, openedSession,
      txBegin, txCommit, txRollback, txClose, txClosed, sessionClose]

/-- Witness for C8: a body raising TransientError rolls back, re-raises,
and both handles end closed exactly once. -/
theorem C8_transaction_scope_witness :
    ((Neo4jDatabase.transaction readyState
        (BodyOutcome.raises (Neo4jErr.transientError "boom"))).2.txCommits = 1 ↔
      BodyOutcome.raises (Neo4jErr.transientError "boom") = BodyOutcome.success) ∧
    (∀ e, BodyOutcome.raises (Neo4jErr.transientError "boom") = BodyOutcome.raises e →
      (Neo4jDatabase.transaction readyState
        (BodyOutcome.raises (Neo4jErr.transientError "boom"))).1 = Except.error e ∧
      (Neo4jDatabase.transaction readyState
        (BodyOutcome.raises (Neo4jErr.transientError "boom"))).2.txRollbacks = 1) ∧
    (BodyOutcome.raises (Neo4jErr.transientError "boom") = BodyOutcome.success →
      (Neo4jDatabase.transaction readyState
        (BodyOutcome.raises (Neo4jErr.transientError "boom"))).1 = Except.ok ()) ∧
    (Neo4jDatabase.transaction readyState
      (BodyOutcome.raises (Neo4jErr.transientError "boom"))).2.txCloses = 1 ∧
    (Neo4jDatabase.transaction readyState
      (BodyOutcome.raises (Neo4jErr.transientError "boom"))).2.sessionCloses = 1 ∧
    (Neo4jDatabase.transaction readyState
      (BodyOutcome.raises (Neo4jErr.transientError "boom"))).2.txOpen = false ∧
    (Neo4jDatabase.transaction readyState
      (BodyOutcome.raises (Neo4jErr.transientError "boom"))).2.sessionOpen = false :=
  C8_transaction_scope readyState
    (BodyOutcome.raises (Neo4jErr.transientError "boom")) rfl

/-- Claim C10: run_query fetches exactly one batch of fetch_size records
(default 1000) from the result stream and returns their data: the result
has min(fetch_size, stream length) records, and a stream longer than
fetch_size yields exactly fetch_size records with the excess silently
dropped, not signalled. -/
theorem C10_run_query_single_batch (st : DBState) (stream : List Record)
    (outcomes : Nat → Except Neo4jErr (List Record)) (fetchSize : Nat)
    (rand : Nat → ℚ)
    (hinit : st.is_initialized = true) (h0 : outcomes 0 = Except.ok stream) :
    (run_query st outcomes fetchSize rand).result =
      Except.ok ((stream.take fetchSize).map Record.data) ∧
    (run_query st outcomes fetchSize rand).attemptsMade = 1 ∧
    ((stream.take fetchSize).map Record.data).length = min fetchSize stream.length ∧
    (fetchSize < stream.length →
      ((stream.take fetchSize).map Record.data).length = fetchSize ∧
      ((stream.take fetchSize).map Record.data).length < stream.length) ∧
    defaultFetchSize = 1000 := by
  have hbody : run_query_once st (outcomes 0) fetchSize =
      Except.ok ((stream.take fetchSize).map Record.data) := by
    simp [run_query_once, Neo4jDatabase.session, hinit, h0, fetchBatch]
  have hw := with_retry_first_ok 3 1 defaultMaxDelay defaultExponentialBase
    (fun i => run_query_once st (outcomes i) fetchSize) rand _ hbody
  refine ⟨?_, ?_, ?_, ?_, rfl⟩
  · rw [run_query, hw]
  · rw [run_query, hw]
  · simp [List.length_take]
  · intro h
    constructor <;> simp [List.length_take] <;> omega

/-- Witness for C10: a three-record stream with fetch_size 2 returns
exactly the first two records. -/
theorem C10_run_query_single_batch_witness :
    (run_query readyState
      (fun _ => Except.ok [⟨["a"], [1]⟩, ⟨["b"], [2]⟩, ⟨["c"], [3]⟩]) 2
      (fun _ => 0)).result =
      Except.ok ((List.take 2 [⟨["a"], [1]⟩, ⟨["b"], [2]⟩,
        (⟨["c"], [3]⟩ : Record)]).map Record.data) ∧
    (run_query readyState
      (fun _ => Except.ok [⟨["a"], [1]⟩, ⟨["b"], [2]⟩, ⟨["c"], [3]⟩]) 2
      (fun _ => 0)).attemptsMade = 1 ∧
    ((List.take 2 [⟨["a"], [1]⟩, ⟨["b"], [2]⟩,
        (⟨["c"], [3]⟩ : Record)]).map Record.data).length =
      min 2 ([⟨["a"], [1]⟩, ⟨["b"], [2]⟩, (⟨["c"], [3]⟩ : Record)]).length ∧
    (2 < ([⟨["a"], [1]⟩, ⟨["b"], [2]⟩, (⟨["c"], [3]⟩ : Record)]).length →
      ((List.take 2 [⟨["a"], [1]⟩, ⟨["b"], [2]⟩,
        (⟨["c"], [3]⟩ : Record)]).map Record.data).length = 2 ∧
      ((List.take 2 [⟨["a"], [1]⟩, ⟨["b"], [2]⟩,
        (⟨["c"], [3]⟩ : Record)]).map Record.data).length <
        ([⟨["a"], [1]⟩, ⟨["b"], [2]⟩, (⟨["c"], [3]⟩ : Record)]).length) ∧
    defaultFetchSize = 1000 :=
  C10_run_query_single_batch readyState
    [⟨["a"], [1]⟩, ⟨["b"], [2]⟩, ⟨["c"], [3]⟩]
    (fun _ => Except.ok [⟨["a"], [1]⟩, ⟨["b"], [2]⟩, ⟨["c"], [3]⟩]) 2
    (fun _ => 0) rfl rfl

/-- Claim C3: health_check never raises — every run returns a result that
is either healthy with connectivity and no error, or unhealthy with
connectivity false and a set error field; and an uninitialized manager
yields exactly the unhealthy not-initialized result with zero sessions
opened (no network call) and a non-empty error string. -/
theorem C3_health_check_fails_soft (st : DBState) (detailed : Bool) (w : HealthWorld) :
    (((health_check st detailed w).1.status = "healthy" ∧
      (health_check st detailed w).1.neo4j_connected = true ∧
      (health_check st detailed w).1.error = none) ∨
     ((health_check st detailed w).1.status = "unhealthy" ∧
      (health_check st detailed w).1.neo4j_connected = false ∧
      (health_check st detailed w).1.error ≠ none)) ∧
    (st.is_initialized = false →
      health_check st detailed w = (mkUnhealthy "Neo4j driver not initialized", 0) ∧
      "Neo4j driver not initialized" ≠ "") := by
  constructor
  · by_cases hinit : st.is_initialized = false
    · right
      simp [health_check, health_check_body, hinit, mkUnhealthy]
    · have hinit' : st.is_initialized = true := by
        revert hinit
        cases st.is_initialized <;> simp
      cases hc : st.config with
      | none =>
        right
        simp [health_check, health_check_body, hinit', hc, mkUnhealthy, Neo4jErr.msg]
      | some cfg =>
        cases hl : w.liveness with
        | error e =>
          right
          cases e <;>
            simp [health_check, health_check_body, hinit', hc, hl, mkUnhealthy,
              Neo4jErr.msg]
        | ok rec =>
          cases rec with
          | none =>
            right
            simp [health_check, health_check_body, hinit', hc, hl, mkUnhealthy]
          | some v =>
            by_cases hv : v = 1
            · subst hv
              cases detailed with
              | false =>
                left
                simp [health_check, health_check_body, hinit', hc, hl]
              | true =>
                cases hs : w.serverInfo with
                | error e =>
                  right
                  cases e <;>
                    simp [health_check, health_check_body, hinit', hc, hl, hs,
                      mkUnhealthy, Neo4jErr.msg]
                | ok srec =>
                  cases hg : w.gds with
                  | error e =>
                    by_cases hne : isNeo4jError e = true
                    · left
                      simp [health_check, health_check_body, hinit', hc, hl, hs,
                        hg, hne]
                    · right
                      have hne' : isNeo4jError e = false := by
                        revert hne
                        cases isNeo4jError e <;> simp
                      cases e <;>
                        simp_all [health_check, health_check_body, mkUnhealthy,
                          Neo4jErr.msg, isNeo4jError]
                  | ok grec =>
                    left
                    simp [health_check, health_check_body, hinit', hc, hl, hs, hg]
            · right
              simp [health_check, health_check_body, hinit', hc, hl, hv, mkUnhealthy]
  · intro hinit
    refine ⟨?_, by decide⟩
    simp [health_check, health_check_body, hinit]

/-- Witness for C3: the never-initialized state returns the unhealthy
not-initialized result with zero sessions opened, against a fully healthy
backend world. -/
theorem C3_health_check_fails_soft_witness :
    health_check emptyState true healthyWorld =
      (mkUnhealthy "Neo4j driver not initialized", 0) ∧
    "Neo4j driver not initialized" ≠ "" :=
  (C3_health_check_fails_soft emptyState true healthyWorld).2 rfl
